import Mathlib

/-!
Shallow embedding of `spotify_shutdown.py`.

The script is a linear pipeline: token refresh / bootstrap against the
token endpoint, one playback query, a remaining-time calculation, and a
countdown loop ending in one OS shutdown command.  Network and clock are
modelled as explicit inputs (HTTP responses, a list of `time.time()`
readings); console prints, network calls, the shutdown command and
process exit are recorded as an event trace.  A `KeyboardInterrupt` is
modelled as firing during the `time.sleep` of a chosen loop iteration.
Python `int(x / 1000)` truncates toward zero, which is `Int.tdiv`.
-/

namespace SpotifyShutdown

/-- Observable events of one process run: network calls, console
messages (abstracted to tags; the progress bar keeps its fill width),
the OS shutdown command. -/
inductive Ev where
  | postTokenRefresh
  | postTokenBootstrap
  | getPlayerCall
  | msgRefreshOk
  | msgRefreshErr
  | msgBootstrapMissingCode
  | msgBootstrapOk
  | msgBootstrapErr
  | msgNoSongPlaying
  | msgSongInfoErr
  | msgAnnounce
  | bar (filled : Int)
  | msgFinalBar
  | msgCancelled
  | msgCurrentlyPlaying
  | msgEndsIn
  | msgSongOver
  | msgCouldNotGet
  | msgAttemptFirstTime
  | msgSetupFailed
  | msgPasteToken
  | osShutdownCmd
  deriving DecidableEq

/-- Python truthiness of an `os.getenv` result / a string-valued dict
field: `None` and the empty string are falsy. -/
def pyTruthy : Option String → Bool
  | none => false
  | some s => !s.isEmpty

/-- The four environment variables read at module load. -/
structure Env where
  client_id : Option String
  client_secret : Option String
  authorization_code : Option String
  refresh_token : Option String

/-- A token-endpoint HTTP response: status code and decoded JSON body,
kept as the string fields the script reads (`access_token`,
`refresh_token`). -/
structure TokenResp where
  status : Nat
  body : List (String × String)

/-- Python `dict.get(k)` on a decoded JSON object. -/
def jsonGet (body : List (String × String)) (k : String) : Option String :=
  (body.find? (fun p => p.1 = k)).map (fun p => p.2)

/-- Result of a token-endpoint call: the returned value plus the events
the call emitted. -/
structure TokenResult where
  token : Option String
  trace : List Ev
  deriving DecidableEq

/-- Embedding of `get_access_token_from_refresh_token()`: returns `None`
with no side effect when the refresh token is falsy; otherwise POSTs,
and on HTTP 200 prints success and returns the body's `access_token`
field (possibly absent), on any other status logs and returns `None`. -/
def get_access_token_from_refresh_token (env : Env) (resp : TokenResp) :
    TokenResult :=
  if pyTruthy env.refresh_token = false then ⟨none, []⟩
  else if resp.status = 200 then
    ⟨jsonGet resp.body "access_token", [.postTokenRefresh, .msgRefreshOk]⟩
  else ⟨none, [.postTokenRefresh, .msgRefreshErr]⟩

/-- Result of `get_initial_tokens()`: the `(access, refresh)` pair plus
emitted events. -/
structure InitResult where
  access : Option String
  refresh : Option String
  trace : List Ev
  deriving DecidableEq

/-- Embedding of `get_initial_tokens()`: with a falsy authorization code
it prints an error and returns `(None, None)` without a network call;
otherwise POSTs and on HTTP 200 returns the body's token fields, else
logs and returns `(None, None)`. -/
def get_initial_tokens (env : Env) (resp : TokenResp) : InitResult :=
  if pyTruthy env.authorization_code = false then
    ⟨none, none, [.msgBootstrapMissingCode]⟩
  else if resp.status = 200 then
    ⟨jsonGet resp.body "access_token", jsonGet resp.body "refresh_token",
      [.postTokenBootstrap, .msgBootstrapOk]⟩
  else ⟨none, none, [.postTokenBootstrap, .msgBootstrapErr]⟩

/-- The fields of one artist dict that the script reads (`name`). -/
structure SongArtist where
  name : Option String
  deriving DecidableEq

/-- The fields of the `item` dict that the script reads; `extra` records
whether the dict has further keys (for Python dict truthiness). -/
structure SongItem where
  name : Option String
  artists : Option (List SongArtist)
  duration_ms : Option Int
  extra : Bool
  deriving DecidableEq

/-- The decoded playback JSON body, restricted to the fields the script
reads; `extra` records whether the dict has further keys. -/
structure SongData where
  is_playing : Option Bool
  item : Option SongItem
  progress_ms : Option Int
  extra : Bool
  deriving DecidableEq

/-- Python truthiness of the playback dict: nonempty. -/
def SongData.truthy (d : SongData) : Bool :=
  d.is_playing.isSome || d.item.isSome || d.progress_ms.isSome || d.extra

/-- A playback-endpoint HTTP response; on 200 the body is the decoded
JSON snapshot. -/
structure PlayerResp where
  status : Nat
  body : SongData

/-- Embedding of `get_song_info()`: 200 returns the decoded body, 204
prints the nothing-playing notice and returns `None`, anything else
logs the error body and returns `None`. -/
def get_song_info (resp : PlayerResp) : Option SongData × List Ev :=
  if resp.status = 200 then (some resp.body, [.getPlayerCall])
  else if resp.status = 204 then
    (none, [.getPlayerCall, .msgNoSongPlaying])
  else (none, [.getPlayerCall, .msgSongInfoErr])

/-- Python `int(q)` on a rational: truncation toward zero. -/
def pyInt (q : ℚ) : Int :=
  if 0 ≤ q then ⌊q⌋ else ⌈q⌉

/-- Python `int(a / b)` for integers: exact division then truncation
toward zero, i.e. T-division. -/
def pyIntDiv (a b : Int) : Int := Int.tdiv a b

/-- The remaining-time calculation of `main()`:
`int((duration_ms - progress_ms) / 1000)`. -/
def remainingSeconds (progress_ms duration_ms : Int) : Int :=
  pyIntDiv (duration_ms - progress_ms) 1000

/-- The countdown target of `shutdown_computer`:
`max(0, seconds - 2)`. -/
def target_duration (seconds : Int) : Int := max 0 (seconds - 2)

/-- The guarded progress-bar fraction of `shutdown_computer`:
`min(1.0, elapsed / target_duration) if target_duration > 0 else 1.0`. -/
def percentOf (elapsed target : ℚ) : ℚ :=
  if target > 0 then min 1 (elapsed / target) else 1

/-- How the countdown left its loop: fell through to the shutdown
command, or was cancelled by a `KeyboardInterrupt`. -/
inductive CdOutcome where
  | completed
  | cancelled
  deriving DecidableEq

/-- The countdown loop body.  `ticks` are the successive `time.time()`
readings of the iterations; `intr = some i` means a
`KeyboardInterrupt` fires during the `time.sleep` of iteration `i`
(0-based).  Returns `none` when the readings run out with the loop
still running (the real loop would keep spinning); otherwise the
outcome and the bar events rendered. -/
def countdownLoop (target start : ℚ) (intr : Option Nat) :
    List ℚ → Nat → Option (CdOutcome × List Ev)
  | [], _ => none
  | t :: ts, i =>
    let elapsed := t - start
    let remaining := target - elapsed
    if remaining ≤ 0 then some (.completed, [])
    else
      let percent := percentOf elapsed target
      let filled := pyInt (30 * percent)
      if intr = some i then some (.cancelled, [.bar filled])
      else
        match countdownLoop target start intr ts (i + 1) with
        | none => none
        | some (o, tr) => some (o, .bar filled :: tr)

/-- Observable result of one `shutdown_computer` call: how the loop
ended, the `sys.exit` code if any, and the event trace. -/
structure CdRun where
  outcome : CdOutcome
  exitCode : Option Nat
  trace : List Ev
  deriving DecidableEq

/-- Embedding of `shutdown_computer(seconds)`.  The first clock reading
is `start_time`; completion falls through to `os.system(shutdown ...)`,
a `KeyboardInterrupt` prints the cancellation notice and exits 0. -/
def shutdown_computer (seconds : Int) :
    List ℚ → Option Nat → Option CdRun
  | [], _ => none
  | start :: ts, intr =>
    let target : ℚ := (target_duration seconds : Int)
    match countdownLoop target start intr ts 0 with
    | none => none
    | some (.completed, tr) =>
      some ⟨.completed, none, .msgAnnounce :: tr ++ [.msgFinalBar, .osShutdownCmd]⟩
    | some (.cancelled, tr) =>
      some ⟨.cancelled, some 0, .msgAnnounce :: tr ++ [.msgCancelled]⟩

/-- Observable result of one `main()` run: the process exit status, the
full event trace, and the countdown's result when one was started.
`none` stands for a run the model cannot finish: an uncaught
`IndexError` on an empty `artists` list, or clock readings running out
mid-countdown. -/
structure MainRun where
  exitCode : Nat
  trace : List Ev
  countdown : Option CdRun
  deriving DecidableEq

/-- Embedding of `main()`: refresh flow, bootstrap fallback with its two
exits, playback query, remaining-time check, countdown. -/
def main (env : Env) (refreshResp initResp : TokenResp)
    (playerResp : PlayerResp) (ticks : List ℚ) (intr : Option Nat) :
    Option MainRun :=
  let r := get_access_token_from_refresh_token env refreshResp
  if pyTruthy r.token = false then
    let b := get_initial_tokens env initResp
    if pyTruthy b.access = false then
      some ⟨1, r.trace ++ [.msgAttemptFirstTime] ++ b.trace ++ [.msgSetupFailed], none⟩
    else
      some ⟨0, r.trace ++ [.msgAttemptFirstTime] ++ b.trace ++ [.msgPasteToken], none⟩
  else
    let s := get_song_info playerResp
    let base := r.trace ++ s.2
    match s.1 with
    | none => some ⟨0, base ++ [.msgCouldNotGet], none⟩
    | some d =>
      if d.truthy && (d.is_playing == some true) then
        let item := d.item.getD ⟨none, none, none, false⟩
        let artists := item.artists.getD [⟨none⟩]
        match artists.head? with
        | none => none
        | some _a0 =>
          let progress_ms := d.progress_ms.getD 0
          let duration_ms := item.duration_ms.getD 0
          let rs := remainingSeconds progress_ms duration_ms
          if rs > 0 then
            match shutdown_computer rs ticks intr with
            | none => none
            | some cd =>
              some ⟨cd.exitCode.getD 0,
                base ++ [.msgCurrentlyPlaying, .msgEndsIn] ++ cd.trace,
                some cd⟩
          else some ⟨0, base ++ [.msgSongOver], none⟩
      else some ⟨0, base ++ [.msgCouldNotGet], none⟩

/-! ### Helper lemmas -/

/-- Every event the countdown loop body emits is a progress-bar render. -/
theorem countdownLoop_events (target start : ℚ) (intr : Option Nat) :
    ∀ (ts : List ℚ) (i : Nat) (o : CdOutcome) (tr : List Ev),
      countdownLoop target start intr ts i = some (o, tr) →
      ∀ e ∈ tr, ∃ f, e = Ev.bar f := by
  intro ts
  induction ts with
  | nil => intro i o tr h; simp [countdownLoop] at h
  | cons t ts ih =>
    intro i o tr h
    simp only [countdownLoop] at h
    split at h
    · obtain ⟨rfl, rfl⟩ := Prod.mk.injEq .. ▸ Option.some.injEq .. ▸ h
      intro e he; simp at he
    · split at h
      · obtain ⟨rfl, rfl⟩ := Prod.mk.injEq .. ▸ Option.some.injEq .. ▸ h
        intro e he
        simp at he
        exact ⟨_, he⟩
      · cases hrec : countdownLoop target start intr ts (i + 1) with
        | none => rw [hrec] at h; cases h
        | some p =>
          obtain ⟨o', tr'⟩ := p
          rw [hrec] at h
          obtain ⟨rfl, rfl⟩ := Prod.mk.injEq .. ▸ Option.some.injEq .. ▸ h
          intro e he
          rcases List.mem_cons.mp he with rfl | he'
          · exact ⟨_, rfl⟩
          · exact ih (i + 1) o' tr' hrec e he'

/-- The loop trace never holds the shutdown command. -/
theorem countdownLoop_no_shutdown (target start : ℚ) (intr : Option Nat)
    (ts : List ℚ) (i : Nat) (o : CdOutcome) (tr : List Ev)
    (h : countdownLoop target start intr ts i = some (o, tr)) :
    Ev.osShutdownCmd ∉ tr := by
  intro hmem
  obtain ⟨f, hf⟩ := countdownLoop_events target start intr ts i o tr h _ hmem
  cases hf

/-- The loop trace never holds the cancellation notice. -/
theorem countdownLoop_no_cancel (target start : ℚ) (intr : Option Nat)
    (ts : List ℚ) (i : Nat) (o : CdOutcome) (tr : List Ev)
    (h : countdownLoop target start intr ts i = some (o, tr)) :
    Ev.msgCancelled ∉ tr := by
  intro hmem
  obtain ⟨f, hf⟩ := countdownLoop_events target start intr ts i o tr h _ hmem
  cases hf

/-- Behaviour of one finished `shutdown_computer` call: the shutdown
command appears exactly on completion (once), cancellation exits 0 with
the notice printed, completion returns normally. -/
theorem shutdown_computer_spec (s : Int) (ticks : List ℚ) (intr : Option Nat)
    (cd : CdRun) (h : shutdown_computer s ticks intr = some cd) :
    (cd.trace.count Ev.osShutdownCmd = if cd.outcome = .completed then 1 else 0) ∧
    (Ev.osShutdownCmd ∈ cd.trace ↔ cd.outcome = .completed) ∧
    (cd.outcome = .completed → cd.exitCode = none) ∧
    (cd.outcome = .cancelled → cd.exitCode = some 0 ∧ Ev.msgCancelled ∈ cd.trace) := by
  match ticks with
  | [] => simp [shutdown_computer] at h
  | start :: ts =>
    simp only [shutdown_computer] at h
    cases hrec : countdownLoop ((target_duration s : Int) : ℚ) start intr ts 0 with
    | none => rw [hrec] at h; cases h
    | some p =>
      obtain ⟨o, tr⟩ := p
      have hns := countdownLoop_no_shutdown _ start intr ts 0 o tr hrec
      have hnc := countdownLoop_no_cancel _ start intr ts 0 o tr hrec
      rw [hrec] at h
      cases o with
      | completed =>
        injection h with h2
        subst h2
        refine ⟨?_, ?_, ?_, ?_⟩
        · simp [List.count_cons, List.count_append, List.count_eq_zero.mpr hns]
        · simp [hns]
        · intro _; rfl
        · intro hc; exact absurd hc (by simp)
      | cancelled =>
        injection h with h2
        subst h2
        refine ⟨?_, ?_, ?_, ?_⟩
        · simp [List.count_cons, List.count_append, List.count_eq_zero.mpr hns]
        · simp [hns]
        · intro hc; exact absurd hc (by simp)
        · intro _; exact ⟨rfl, by simp⟩

/-- The refresh flow's trace never holds the shutdown command or a
playback-endpoint call. -/
theorem refresh_trace_events (env : Env) (resp : TokenResp) :
    Ev.osShutdownCmd ∉ (get_access_token_from_refresh_token env resp).trace ∧
    Ev.getPlayerCall ∉ (get_access_token_from_refresh_token env resp).trace := by
  unfold get_access_token_from_refresh_token
  split
  · simp
  · split <;> simp

/-- The bootstrap flow's trace never holds the shutdown command or a
playback-endpoint call. -/
theorem init_trace_events (env : Env) (resp : TokenResp) :
    Ev.osShutdownCmd ∉ (get_initial_tokens env resp).trace ∧
    Ev.getPlayerCall ∉ (get_initial_tokens env resp).trace := by
  unfold get_initial_tokens
  split
  · simp
  · split <;> simp

/-- The playback query's trace never holds the shutdown command. -/
theorem song_trace_no_shutdown (resp : PlayerResp) :
    Ev.osShutdownCmd ∉ (get_song_info resp).2 := by
  unfold get_song_info
  split
  · simp
  · split <;> simp

/-- Without an interrupt, the loop completes as soon as some clock
reading shows the target duration elapsed. -/
theorem countdownLoop_terminates (target start : ℚ) :
    ∀ (ts : List ℚ) (i : Nat), (∃ t ∈ ts, target ≤ t - start) →
      ∃ tr, countdownLoop target start none ts i = some (.completed, tr) := by
  intro ts
  induction ts with
  | nil => intro i h; simp at h
  | cons t ts ih =>
    intro i h
    by_cases hbr : target - (t - start) ≤ 0
    · exact ⟨[], by simp [countdownLoop, hbr]⟩
    · obtain ⟨t0, ht0, hge⟩ := h
      rcases List.mem_cons.mp ht0 with rfl | hmem
      · exact absurd hge (by push_neg at hbr ⊢; linarith)
      · obtain ⟨tr, htr⟩ := ih (i + 1) ⟨t0, hmem, hge⟩
        exact ⟨Ev.bar (pyInt (30 * percentOf (t - start) target)) :: tr,
          by simp [countdownLoop, hbr, htr]⟩

/-! ### Claims -/

/-- C2: for every pair `(progress_ms, duration_ms)` with
`duration_ms ≥ progress_ms ≥ 0`, the remaining-time value computed in
`main` before any countdown equals `⌊(duration_ms - progress_ms) / 1000⌋`
and is non-negative. -/
theorem C2_remaining_seconds (p d : Int) (_hp : 0 ≤ p) (hpd : p ≤ d) :
    remainingSeconds p d = Int.fdiv (d - p) 1000 ∧ 0 ≤ remainingSeconds p d := by
  constructor
  · exact (Int.fdiv_eq_tdiv (by omega) (by norm_num)).symm
  · exact Int.tdiv_nonneg (by omega) (by norm_num)

/-- Witness for C2 at `(progress_ms, duration_ms) = (290000, 300000)`. -/
theorem C2_remaining_seconds_witness :
    remainingSeconds 290000 300000 = Int.fdiv (300000 - 290000) 1000 ∧
    0 ≤ remainingSeconds 290000 300000 :=
  C2_remaining_seconds 290000 300000 (by decide) (by decide)

/-- C4: with `SPOTIFY_REFRESH_TOKEN` unset, the refresh flow returns
absent immediately — no network-call event, no print, no side effect at
all. -/
theorem C4_refresh_unset (env : Env) (resp : TokenResp)
    (h : env.refresh_token = none) :
    get_access_token_from_refresh_token env resp = ⟨none, []⟩ := by
  simp [get_access_token_from_refresh_token, pyTruthy, h]

/-- Witness for C4 at a fully-unset environment. -/
theorem C4_refresh_unset_witness :
    get_access_token_from_refresh_token ⟨none, none, none, none⟩ ⟨200, [("access_token", "T")]⟩ =
      ⟨none, []⟩ :=
  C4_refresh_unset ⟨none, none, none, none⟩ ⟨200, [("access_token", "T")]⟩ rfl

/-- C5: the playback query returns the decoded body on 200, absent plus
the informational notice on 204, and absent plus the error log on every
other status; it is a total function, so no exception reaches the
caller. -/
theorem C5_song_info_cases (resp : PlayerResp) :
    (resp.status = 200 → get_song_info resp = (some resp.body, [.getPlayerCall])) ∧
    (resp.status = 204 → get_song_info resp = (none, [.getPlayerCall, .msgNoSongPlaying])) ∧
    (resp.status ≠ 200 → resp.status ≠ 204 →
      get_song_info resp = (none, [.getPlayerCall, .msgSongInfoErr])) := by
  refine ⟨fun h => ?_, fun h => ?_, fun h1 h2 => ?_⟩ <;>
    simp [get_song_info, *]

/-- Witness for C5 at an HTTP 401 response. -/
theorem C5_song_info_cases_witness :
    get_song_info ⟨401, ⟨none, none, none, false⟩⟩ =
      (none, [.getPlayerCall, .msgSongInfoErr]) :=
  (C5_song_info_cases ⟨401, ⟨none, none, none, false⟩⟩).2.2 (by decide) (by decide)

/-- C8: an HTTP 200 token response whose JSON body lacks `access_token`
makes the refresh flow return `None` rather than raise, so `main` goes
on to the bootstrap flow. -/
theorem C8_missing_access_token (env : Env) (resp : TokenResp)
    (ht : pyTruthy env.refresh_token = true) (hs : resp.status = 200)
    (hb : jsonGet resp.body "access_token" = none) :
    (get_access_token_from_refresh_token env resp).token = none ∧
    ∀ (iR : TokenResp) (pR : PlayerResp) (ticks : List ℚ) (intr : Option Nat)
      (run : MainRun), main env resp iR pR ticks intr = some run →
      Ev.msgAttemptFirstTime ∈ run.trace := by
  have htok : (get_access_token_from_refresh_token env resp).token = none := by
    simp [get_access_token_from_refresh_token, ht, hs, hb]
  refine ⟨htok, fun iR pR ticks intr run h => ?_⟩
  simp only [main] at h
  rw [htok] at h
  norm_num [pyTruthy] at h
  split at h <;>
    (injection h with h2; subst h2; simp)

/-- C3: when the countdown is cancelled by an operator interrupt during
the wait, the process exits with status 0, the cancellation notice is
printed, and the shutdown command is never invoked. -/
theorem C3_cancel (s : Int) (ticks : List ℚ) (intr : Option Nat) (cd : CdRun)
    (h : shutdown_computer s ticks intr = some cd)
    (hc : cd.outcome = .cancelled) :
    cd.exitCode = some 0 ∧ Ev.msgCancelled ∈ cd.trace ∧
    Ev.osShutdownCmd ∉ cd.trace := by
  obtain ⟨_, hmem, _, hcanc⟩ := shutdown_computer_spec s ticks intr cd h
  obtain ⟨he, hm⟩ := hcanc hc
  refine ⟨he, hm, fun hmem2 => ?_⟩
  rw [hmem, hc] at hmem2
  cases hmem2

/-- Witness for C3: a 10-second countdown with the interrupt firing in
the first iteration's sleep. -/
theorem C3_cancel_witness :
    (⟨.cancelled, some 0, [.msgAnnounce, .bar 3, .msgCancelled]⟩ : CdRun).exitCode = some 0 ∧
    Ev.msgCancelled ∈ (⟨.cancelled, some 0, [.msgAnnounce, .bar 3, .msgCancelled]⟩ : CdRun).trace ∧
    Ev.osShutdownCmd ∉ (⟨.cancelled, some 0, [.msgAnnounce, .bar 3, .msgCancelled]⟩ : CdRun).trace :=
  C3_cancel 10 [0, 1] (some 0) _
    (by
      simp [shutdown_computer, countdownLoop, target_duration, percentOf, pyInt]
      norm_num)
    rfl

/-- C6: the remaining time for `(progress_ms, duration_ms) =
(290000, 300000)` is 10 seconds; the countdown target is
`max 0 (seconds - 2)`, so 8 for those values; and the loop terminates
with completion once a clock reading shows 8 seconds elapsed. -/
theorem C6_target_and_termination :
    remainingSeconds 290000 300000 = 10 ∧
    (∀ s : Int, target_duration s = max 0 (s - 2)) ∧
    target_duration 10 = 8 ∧
    ∀ (start : ℚ) (ts : List ℚ), (∃ t ∈ ts, 8 ≤ t - start) →
      ∃ cd, shutdown_computer 10 (start :: ts) none = some cd ∧
        cd.outcome = .completed := by
  refine ⟨by decide, fun s => rfl, by decide, fun start ts h => ?_⟩
  have h8 : ((target_duration 10 : Int) : ℚ) = 8 := by norm_num [target_duration]
  obtain ⟨tr, htr⟩ := countdownLoop_terminates 8 start ts 0 h
  refine ⟨⟨.completed, none, .msgAnnounce :: tr ++ [.msgFinalBar, .osShutdownCmd]⟩, ?_, rfl⟩
  simp [shutdown_computer, h8, htr]

/-- Witness for C6: with readings `[0, 8]` the 10-second countdown
completes. -/
theorem C6_target_and_termination_witness :
    (shutdown_computer 10 [0, 8] none).map CdRun.outcome = some .completed := by
  obtain ⟨cd, hcd, hout⟩ :=
    C6_target_and_termination.2.2.2 0 [8] ⟨8, by simp, by norm_num⟩
  simp [hcd, hout]

/-- C9: for every seconds value at most 2 the countdown target is 0, the
guarded percent expression yields 1 at target 0 (no division by zero),
the loop exits on its first remaining-time check (no bar is rendered),
and the shutdown command is issued immediately. -/
theorem C9_short_countdown (s : Int) (hs : s ≤ 2) :
    target_duration s = 0 ∧
    (∀ e : ℚ, percentOf e 0 = 1) ∧
    ∀ (start t : ℚ) (ts : List ℚ) (intr : Option Nat), start ≤ t →
      shutdown_computer s (start :: t :: ts) intr =
        some ⟨.completed, none, [.msgAnnounce, .msgFinalBar, .osShutdownCmd]⟩ := by
  have h0 : target_duration s = 0 := by simp [target_duration]; omega
  refine ⟨h0, fun e => by simp [percentOf], fun start t ts intr hst => ?_⟩
  have hc : ((target_duration s : Int) : ℚ) = 0 := by rw [h0]; norm_num
  simp [shutdown_computer, hc, countdownLoop, hst]

/-- Witness for C9 at `seconds = 2` with two equal clock readings. -/
theorem C9_short_countdown_witness :
    target_duration 2 = 0 ∧ percentOf 5 0 = 1 ∧
    shutdown_computer 2 [0, 0] none =
      some ⟨.completed, none, [.msgAnnounce, .msgFinalBar, .osShutdownCmd]⟩ := by
  obtain ⟨h1, h2, h3⟩ := C9_short_countdown 2 (by decide)
  exact ⟨h1, h2 5, h3 0 0 [] none le_rfl⟩

/-- A finished countdown always leaves `sys.exit`-status-or-fallthrough
0 for the process: completion returns normally, cancellation exits 0. -/
theorem shutdown_computer_exit (s : Int) (ticks : List ℚ) (intr : Option Nat)
    (cd : CdRun) (h : shutdown_computer s ticks intr = some cd) :
    cd.exitCode.getD 0 = 0 := by
  obtain ⟨_, _, hcompl, hcanc⟩ := shutdown_computer_spec s ticks intr cd h
  cases hout : cd.outcome
  · rw [hcompl hout]; rfl
  · rw [(hcanc hout).1]; rfl

/-- C1: in every finished run of `main`, the OS shutdown command appears
at most once in the trace, and it appears exactly when a countdown was
started and ran to completion without an interrupt — no other code path
emits it. -/
theorem C1_shutdown_at_most_once (env : Env) (rR iR : TokenResp)
    (pR : PlayerResp) (ticks : List ℚ) (intr : Option Nat) (run : MainRun)
    (h : main env rR iR pR ticks intr = some run) :
    run.trace.count Ev.osShutdownCmd ≤ 1 ∧
    (Ev.osShutdownCmd ∈ run.trace ↔
      ∃ cd, run.countdown = some cd ∧ cd.outcome = .completed) := by
  have hr := (refresh_trace_events env rR).1
  have hi := (init_trace_events env iR).1
  have hsg := song_trace_no_shutdown pR
  simp only [main] at h
  repeat' split at h
  all_goals cases h
  all_goals (refine ⟨?_, ?_⟩ <;>
    try simp [List.count_append, List.count_cons, List.count_eq_zero.mpr hr,
      List.count_eq_zero.mpr hi, List.count_eq_zero.mpr hsg, hr, hi, hsg])
  all_goals (rename_i cd hcd; obtain ⟨hcount, hmem, _, _⟩ := shutdown_computer_spec _ ticks intr cd hcd)
  · simp [List.count_append, List.count_cons, List.count_eq_zero.mpr hr,
      List.count_eq_zero.mpr hsg, hcount]
    split <;> norm_num
  · simp [hr, hsg, hmem]

/-- Witness for C1: a run that fails bootstrap and exits 1 with no
shutdown command in its trace. -/
theorem C1_shutdown_at_most_once_witness :
    (⟨1, [Ev.msgAttemptFirstTime, Ev.msgBootstrapMissingCode, Ev.msgSetupFailed],
        none⟩ : MainRun).trace.count Ev.osShutdownCmd ≤ 1 ∧
    (Ev.osShutdownCmd ∈ (⟨1, [Ev.msgAttemptFirstTime, Ev.msgBootstrapMissingCode,
        Ev.msgSetupFailed], none⟩ : MainRun).trace ↔
      ∃ cd, (⟨1, [Ev.msgAttemptFirstTime, Ev.msgBootstrapMissingCode,
        Ev.msgSetupFailed], none⟩ : MainRun).countdown = some cd ∧
        cd.outcome = .completed) :=
  C1_shutdown_at_most_once ⟨none, none, none, none⟩ ⟨400, []⟩ ⟨400, []⟩
    ⟨204, ⟨none, none, none, false⟩⟩ [] none _ (by decide)

/-- C7: in every finished run, the exit code is 1 exactly when the
refresh flow yields no (truthy) token and the bootstrap flow yields no
(truthy) access token; a falsy authorization code makes bootstrap
return `(None, None)` after only the error print, with no network
call; and after a successful bootstrap the run prompts the operator,
exits 0, and never calls the playback endpoint. -/
theorem C7_exit_codes (env : Env) (rR iR : TokenResp) (pR : PlayerResp)
    (ticks : List ℚ) (intr : Option Nat) (run : MainRun)
    (h : main env rR iR pR ticks intr = some run) :
    (run.exitCode = 1 ↔
      pyTruthy (get_access_token_from_refresh_token env rR).token = false ∧
      pyTruthy (get_initial_tokens env iR).access = false) ∧
    (pyTruthy env.authorization_code = false →
      get_initial_tokens env iR = ⟨none, none, [.msgBootstrapMissingCode]⟩) ∧
    (pyTruthy (get_access_token_from_refresh_token env rR).token = false →
      pyTruthy (get_initial_tokens env iR).access = true →
      run.exitCode = 0 ∧ Ev.msgPasteToken ∈ run.trace ∧
      Ev.getPlayerCall ∉ run.trace) := by
  have hr2 := (refresh_trace_events env rR).2
  have hi2 := (init_trace_events env iR).2
  refine ⟨?_, fun hac => by simp [get_initial_tokens, hac], ?_⟩
  · simp only [main] at h
    repeat' split at h
    all_goals cases h
    all_goals try (rename_i cd hcd; have hex := shutdown_computer_exit _ ticks intr cd hcd)
    all_goals simp_all
  · intro hx hy
    simp only [main] at h
    repeat' split at h
    all_goals cases h
    all_goals simp_all

/-- Witness for C7: both flows fail with an empty environment, so the
run exits 1. -/
theorem C7_exit_codes_witness :
    ((⟨1, [Ev.msgAttemptFirstTime, Ev.msgBootstrapMissingCode, Ev.msgSetupFailed],
        none⟩ : MainRun).exitCode = 1 ↔
      pyTruthy (get_access_token_from_refresh_token ⟨none, none, none, none⟩
        ⟨400, []⟩).token = false ∧
      pyTruthy (get_initial_tokens ⟨none, none, none, none⟩ ⟨400, []⟩).access = false) ∧
    (pyTruthy (⟨none, none, none, none⟩ : Env).authorization_code = false →
      get_initial_tokens ⟨none, none, none, none⟩ ⟨400, []⟩ =
        ⟨none, none, [.msgBootstrapMissingCode]⟩) ∧
    (pyTruthy (get_access_token_from_refresh_token ⟨none, none, none, none⟩
        ⟨400, []⟩).token = false →
      pyTruthy (get_initial_tokens ⟨none, none, none, none⟩ ⟨400, []⟩).access = true →
      (⟨1, [Ev.msgAttemptFirstTime, Ev.msgBootstrapMissingCode, Ev.msgSetupFailed],
        none⟩ : MainRun).exitCode = 0 ∧
      Ev.msgPasteToken ∈ (⟨1, [Ev.msgAttemptFirstTime, Ev.msgBootstrapMissingCode,
        Ev.msgSetupFailed], none⟩ : MainRun).trace ∧
      Ev.getPlayerCall ∉ (⟨1, [Ev.msgAttemptFirstTime, Ev.msgBootstrapMissingCode,
        Ev.msgSetupFailed], none⟩ : MainRun).trace) :=
  C7_exit_codes ⟨none, none, none, none⟩ ⟨400, []⟩ ⟨400, []⟩
    ⟨204, ⟨none, none, none, false⟩⟩ [] none _ (by decide)

/-- Witness for C8: HTTP 200 whose body has only `refresh_token`; the
refresh flow returns `None` and the run reaches the bootstrap attempt. -/
theorem C8_missing_access_token_witness :
    (get_access_token_from_refresh_token ⟨none, none, none, some "R"⟩
      ⟨200, [("refresh_token", "X")]⟩).token = none ∧
    Ev.msgAttemptFirstTime ∈ (⟨1, [Ev.postTokenRefresh, Ev.msgRefreshOk,
      Ev.msgAttemptFirstTime, Ev.msgBootstrapMissingCode, Ev.msgSetupFailed],
      none⟩ : MainRun).trace :=
  ⟨(C8_missing_access_token ⟨none, none, none, some "R"⟩
      ⟨200, [("refresh_token", "X")]⟩ (by decide) rfl (by decide)).1,
   (C8_missing_access_token ⟨none, none, none, some "R"⟩
      ⟨200, [("refresh_token", "X")]⟩ (by decide) rfl (by decide)).2
      ⟨400, []⟩ ⟨204, ⟨none, none, none, false⟩⟩ [] none _ (by decide)⟩

/-- C10 counterexample: a playback snapshot that reports `is_playing`
and a positive `duration_ms` but lacks `progress_ms`.  The claim says
the countdown is never started; the run in fact starts it (the
substituted progress 0 gives a positive remaining time) and issues the
shutdown command, and the song-over notice is never printed. -/
theorem C10_counterexample :
    (main ⟨none, none, none, some "R"⟩ ⟨200, [("access_token", "T")]⟩ ⟨400, []⟩
        ⟨200, ⟨some true, some ⟨some "X", none, some 300000, false⟩, none, false⟩⟩
        [0, 1000] none).map
      (fun r => (r.countdown.isSome, r.trace.count Ev.osShutdownCmd,
        r.trace.count Ev.msgSongOver)) = some (true, 1, 0) := by
  have h1 : Int.tdiv 300000 1000 = 300 := by decide
  have h2 : "R".isEmpty = false := rfl
  have h3 : "T".isEmpty = false := rfl
  simp [main, get_access_token_from_refresh_token, get_song_info,
    pyTruthy, jsonGet, SongData.truthy, remainingSeconds, pyIntDiv,
    shutdown_computer, countdownLoop, target_duration, h1, h2, h3]
  norm_num
  decide

/-- C10 (amended): if the snapshot reports `is_playing` but lacks
`duration_ms` or the whole `item`, and any reported progress is
non-negative, then (in a finished run that reached the playback branch)
the substituted 0 duration gives a non-positive remaining time, the
run reports the track as already over, and neither countdown nor
shutdown command happens.  (As stated the claim is false: a missing
`progress_ms` alone, with a positive duration, starts the countdown —
see the counterexample.) -/
theorem C10_amended (env : Env) (rR iR : TokenResp) (pR : PlayerResp)
    (ticks : List ℚ) (intr : Option Nat) (run : MainRun) (d : SongData)
    (hmain : main env rR iR pR ticks intr = some run)
    (hstatus : pR.status = 200) (hbody : pR.body = d)
    (hplay : d.is_playing = some true)
    (hdur : d.item = none ∨ ∃ it, d.item = some it ∧ it.duration_ms = none)
    (hprog : ∀ pr, d.progress_ms = some pr → 0 ≤ pr)
    (htok : pyTruthy (get_access_token_from_refresh_token env rR).token = true) :
    run.countdown = none ∧ Ev.msgSongOver ∈ run.trace ∧
    Ev.osShutdownCmd ∉ run.trace := by
  have hr := (refresh_trace_events env rR).1
  have hsi : get_song_info pR = (some d, [.getPlayerCall]) := by
    simp [get_song_info, hstatus, hbody]
  have hd0 : (d.item.getD ⟨none, none, none, false⟩).duration_ms.getD 0 = 0 := by
    rcases hdur with hit | ⟨it, hit, hdms⟩
    · simp [hit]
    · simp [hit, hdms]
  have hp0 : 0 ≤ d.progress_ms.getD 0 := by
    cases hpm : d.progress_ms with
    | none => simp
    | some pr => simpa using hprog pr hpm
  have hrs : ¬ remainingSeconds (d.progress_ms.getD 0)
      ((d.item.getD ⟨none, none, none, false⟩).duration_ms.getD 0) > 0 := by
    rw [hd0]
    simp only [remainingSeconds, pyIntDiv, not_lt]
    have hneg : (0 : Int) - d.progress_ms.getD 0 = -(d.progress_ms.getD 0) := by ring
    rw [hneg, Int.neg_tdiv]
    exact neg_nonpos_of_nonneg (Int.tdiv_nonneg hp0 (by norm_num))
  simp only [main, htok, hsi] at hmain
  norm_num [SongData.truthy, hplay] at hmain
  split at hmain
  · cases hmain
  · rw [if_neg hrs] at hmain
    cases hmain
    refine ⟨rfl, ?_, ?_⟩ <;> simp [hr]

/-- Witness for C10 (amended): `is_playing` with `progress_ms = 5000`
and no `item`; the run reports the song as over. -/
theorem C10_amended_witness :
    (⟨0, [Ev.postTokenRefresh, Ev.msgRefreshOk, Ev.getPlayerCall, Ev.msgSongOver],
        none⟩ : MainRun).countdown = none ∧
    Ev.msgSongOver ∈ (⟨0, [Ev.postTokenRefresh, Ev.msgRefreshOk, Ev.getPlayerCall,
        Ev.msgSongOver], none⟩ : MainRun).trace ∧
    Ev.osShutdownCmd ∉ (⟨0, [Ev.postTokenRefresh, Ev.msgRefreshOk, Ev.getPlayerCall,
        Ev.msgSongOver], none⟩ : MainRun).trace :=
  C10_amended ⟨none, none, none, some "R"⟩ ⟨200, [("access_token", "T")]⟩
    ⟨400, []⟩ ⟨200, ⟨some true, none, some 5000, false⟩⟩ [] none _
    ⟨some true, none, some 5000, false⟩ (by decide) rfl rfl rfl (Or.inl rfl)
    (fun pr hpr => by injection hpr with h2; omega) (by decide)

end SpotifyShutdown
